import Mathlib

/-!
Verification of the care-plan order intake application.

Shallow embedding of the repository's logic:
- `care_plans/forms.py` — field format validation (`clean_mrn`, `clean_provider_npi`)
  and the duplicate-detection checks (`_check_patient_duplicate`,
  `_check_provider_duplicate`, `_check_order_duplicate`, `clean`).
- `care_plans/views.py` — the intake workflow (`create_order`, `save_order`),
  the success view (`order_success`), care-plan editing (`update_care_plan`)
  and the CSV export (`export_csv`).
- `care_plans/llm.py` — `generate_care_plan`, with the external API call
  abstracted as an input value (`ApiResult`).

The relational store (Django models) is embedded as lists of records.
Timestamps are modelled as natural numbers of minutes of local wall-clock
time since an epoch; one day is 1440 minutes, so the start of the current
local calendar day is `now - now % 1440`.
-/

namespace CarePlansApp

/-- Minutes per local calendar day. -/
def minutesPerDay : Nat := 1440

/-- `timezone.now().replace(hour=0, minute=0, second=0, microsecond=0)`:
the most recent local-wall-clock midnight. -/
def todayStart (now : Nat) : Nat := now - now % minutesPerDay

/-- A stored Patient row (`care_plans.models.Patient`). -/
structure Patient where
  id : Nat
  first_name : String
  last_name : String
  mrn : String
  created_at : Nat
  deriving Repr, DecidableEq

/-- A stored Provider row (`care_plans.models.Provider`). -/
structure Provider where
  id : Nat
  name : String
  npi : String
  created_at : Nat
  deriving Repr, DecidableEq

/-- A stored Order row (`care_plans.models.Order`). -/
structure Order where
  id : Nat
  patientId : Nat
  providerId : Nat
  primary_diagnosis : String
  medication_name : String
  additional_diagnoses : String
  medication_history : String
  patient_records : String
  created_at : Nat
  updated_at : Nat
  deriving Repr, DecidableEq

/-- A stored CarePlan row (`care_plans.models.CarePlan`). -/
structure CarePlan where
  id : Nat
  orderId : Nat
  care_plan_text : String
  generated_at : Nat
  updated_at : Nat
  deriving Repr, DecidableEq

/-- The relational store: the four tables plus an id sequence. -/
structure Store where
  patients : List Patient
  providers : List Provider
  orders : List Order
  carePlans : List CarePlan
  nextId : Nat
  deriving Repr, DecidableEq

/-- The submitted intake form fields (`OrderForm` data). -/
structure FormData where
  patient_first_name : String
  patient_last_name : String
  mrn : String
  provider_name : String
  provider_npi : String
  primary_diagnosis : String
  medication_name : String
  additional_diagnoses : String
  medication_history : String
  patient_records : String
  deriving Repr, DecidableEq

/-- Python `str.lower()` / Django `iexact` comparison key. -/
def lowerStr (s : String) : String := ⟨s.data.map Char.toLower⟩

/-- Python `re.match(r'^\d{n}$', s)`: either exactly `n` decimal digits, or
`n` digits followed by a single trailing newline (Python `$` also matches
just before a final newline). -/
def pyMatchDigits (n : Nat) (s : String) : Bool :=
  (s.data.length == n && s.data.all Char.isDigit)
  || (s.data.length == n + 1 && (s.data.take n).all Char.isDigit
        && s.data.getLast? == some '\n')

/-- Exact-match anchored digit regex as the spec reads it: the string is
exactly `n` decimal digits. -/
def matchesDigits (n : Nat) (s : String) : Prop :=
  s.data.length = n ∧ ∀ c ∈ s.data, c.isDigit

instance (n : Nat) (s : String) : Decidable (matchesDigits n s) := by
  unfold matchesDigits; infer_instance

/-- Errors raised on the `mrn` field: the framework `required` and
`max_length=6` checks, then `clean_mrn`'s regex check
(`forms.py::clean_mrn`). -/
def mrnFieldErrors (s : String) : List String :=
  (if s.data.isEmpty then ["This field is required."] else []) ++
  (if 6 < s.data.length then ["Ensure this value has at most 6 characters."] else []) ++
  (if !s.data.isEmpty && s.data.length ≤ 6 && !pyMatchDigits 6 s then
      ["MRN must be exactly 6 digits"] else [])

/-- Errors raised on the `provider_npi` field: `required`, `max_length=10`,
then `clean_provider_npi`'s regex check (`forms.py::clean_provider_npi`). -/
def npiFieldErrors (s : String) : List String :=
  (if s.data.isEmpty then ["This field is required."] else []) ++
  (if 10 < s.data.length then ["Ensure this value has at most 10 characters."] else []) ++
  (if !s.data.isEmpty && s.data.length ≤ 10 && !pyMatchDigits 10 s then
      ["NPI must be exactly 10 digits"] else [])

/-- Framework validation of a required `CharField`: non-empty. -/
def requiredOk (s : String) : Bool := !s.data.isEmpty

/-- Framework validation of a `max_length` bound. -/
def maxLenOk (m : Nat) (s : String) : Bool := s.data.length ≤ m

/-- `OrderForm.is_valid()` restricted to field/format validation: all
required fields present, all `max_length` bounds respected, and the MRN and
NPI regex checks pass.  Warnings are not errors and never make the form
invalid. -/
def formValid (d : FormData) : Bool :=
  requiredOk d.patient_first_name && (maxLenOk 100 d.patient_first_name &&
  (requiredOk d.patient_last_name && (maxLenOk 100 d.patient_last_name &&
  ((mrnFieldErrors d.mrn).isEmpty &&
  (requiredOk d.provider_name && (maxLenOk 200 d.provider_name &&
  ((npiFieldErrors d.provider_npi).isEmpty &&
  (requiredOk d.primary_diagnosis && (maxLenOk 200 d.primary_diagnosis &&
  (requiredOk d.medication_name && (maxLenOk 200 d.medication_name &&
  (requiredOk d.patient_records && maxLenOk 50000 d.patient_records))))))))))))

theorem digit_errors_aux (n : Nat) (hn : 0 < n) (reqMsg maxMsg regMsg : String) (l : List Char) :
    (((if l.isEmpty then [reqMsg] else []) ++
      (if n < l.length then [maxMsg] else []) ++
      (if !l.isEmpty && l.length ≤ n &&
          !((l.length == n && l.all Char.isDigit)
            || (l.length == n + 1 && (l.take n).all Char.isDigit
                && l.getLast? == some '\n')) then [regMsg] else [])) = [])
    ↔ (l.length = n ∧ ∀ c ∈ l, c.isDigit) := by
  constructor
  · intro h
    by_cases he : l.isEmpty = true
    · simp [he] at h
    · by_cases hl : n < l.length
      · simp [he, hl] at h
      · have hle : l.length ≤ n := Nat.not_lt.mp hl
        by_cases hp : ((l.length == n && l.all Char.isDigit)
            || (l.length == n + 1 && (l.take n).all Char.isDigit
                && l.getLast? == some '\n')) = true
        · simp only [Bool.or_eq_true, Bool.and_eq_true, beq_iff_eq,
            List.all_eq_true] at hp
          rcases hp with ⟨h6, hd⟩ | ⟨⟨h7, _⟩, _⟩
          · exact ⟨h6, hd⟩
          · exact absurd h7 (by omega)
        · simp [he, hl, hle, hp] at h
  · rintro ⟨hlen, hdig⟩
    have hne : l.isEmpty = false := by
      cases l with
      | nil =>
        exfalso
        simp at hlen
        omega
      | cons a t => rfl
    have hp : ((l.length == n && l.all Char.isDigit)
        || (l.length == n + 1 && (l.take n).all Char.isDigit
            && l.getLast? == some '\n')) = true := by
      simp only [Bool.or_eq_true, Bool.and_eq_true, beq_iff_eq, List.all_eq_true]
      exact Or.inl ⟨hlen, hdig⟩
    rw [hp]
    simp [hne, hlen]

theorem mrnFieldErrors_nil_iff (s : String) :
    mrnFieldErrors s = [] ↔ matchesDigits 6 s := by
  simpa [mrnFieldErrors, pyMatchDigits, matchesDigits] using
    digit_errors_aux 6 (by omega) "This field is required."
      "Ensure this value has at most 6 characters."
      "MRN must be exactly 6 digits" s.data

theorem npiFieldErrors_nil_iff (s : String) :
    npiFieldErrors s = [] ↔ matchesDigits 10 s := by
  simpa [npiFieldErrors, pyMatchDigits, matchesDigits] using
    digit_errors_aux 10 (by omega) "This field is required."
      "Ensure this value has at most 10 characters."
      "NPI must be exactly 10 digits" s.data

/-- C4: intake validation accepts a submitted MRN iff it is exactly six
decimal digits, and a submitted NPI iff exactly ten decimal digits; any
deviation leaves a per-field error. -/
theorem mrn_npi_format_validation (s t : String) :
    (mrnFieldErrors s = [] ↔ matchesDigits 6 s) ∧
    (npiFieldErrors t = [] ↔ matchesDigits 10 t) :=
  ⟨mrnFieldErrors_nil_iff s, npiFieldErrors_nil_iff t⟩

/-- A warning entry appended to `OrderForm.warnings`. -/
structure Warning where
  type : String
  message : String
  deriving Repr, DecidableEq

/-- Message of the `patient_duplicate` warning
(`forms.py::_check_patient_duplicate`). -/
def patientDupMessage (mrn fn ln : String) : String :=
  "A patient with MRN " ++ (mrn ++ (" and name \"" ++
    ((fn ++ " " ++ ln) ++ "\" already exists. This may be a duplicate order.")))

/-- Message of the `patient_name_mismatch` warning
(`forms.py::_check_patient_duplicate`). -/
def patientMismatchMessage (mrn exFn exLn fn ln : String) : String :=
  "MRN " ++ (mrn ++ (" belongs to \"" ++ ((exFn ++ " " ++ exLn) ++
    ("\". You entered \"" ++ ((fn ++ " " ++ ln) ++
      ("\". If you proceed, this order will be created for " ++
        ((exFn ++ " " ++ exLn) ++ (", NOT " ++ ((fn ++ " " ++ ln) ++ ".")))))))))

/-- Message of the `provider_duplicate` warning
(`forms.py::_check_provider_duplicate`). -/
def providerMismatchMessage (npi exName name : String) : String :=
  "NPI " ++ (npi ++ (" belongs to \"" ++ (exName ++ ("\". You entered \"" ++
    (name ++ ("\". If you proceed, this order will use " ++ (exName ++ (", NOT " ++
      (name ++ ". Using inconsistent names can cause reporting issues.")))))))))

/-- Message of the `order_duplicate` warning
(`forms.py::_check_order_duplicate`). -/
def orderDupMessage (timeStr : String) : String :=
  "A similar order for this patient and medication was created today at " ++
    (timeStr ++ ". This might be a duplicate or an edit.")

/-- Two-digit zero padding, as in `strftime`. -/
def pad2 (n : Nat) : String := if n < 10 then "0" ++ toString n else toString n

/-- `strftime('%I:%M %p')` applied to a timestamp's local time of day
(12-hour clock).  The `%Z` zone abbreviation of the display string is a
constant of the display timezone and is not modelled. -/
def formatTimeOfDay (t : Nat) : String :=
  let m := t % minutesPerDay
  let h := m / 60
  let mi := m % 60
  let h12 := if h % 12 = 0 then 12 else h % 12
  pad2 h12 ++ ":" ++ pad2 mi ++ (if h < 12 then " AM" else " PM")

/-- `_check_patient_duplicate`: warn when a Patient with the submitted MRN
exists; kind depends on a case-insensitive name comparison. -/
def check_patient_duplicate (store : Store) (d : FormData) : Option Warning :=
  if d.mrn.data.isEmpty || d.patient_first_name.data.isEmpty
      || d.patient_last_name.data.isEmpty then none
  else
    match store.patients.find? (fun p => p.mrn == d.mrn) with
    | none => none
    | some p =>
      if lowerStr p.first_name == lowerStr d.patient_first_name
          && lowerStr p.last_name == lowerStr d.patient_last_name then
        some ⟨"patient_duplicate",
          patientDupMessage d.mrn d.patient_first_name d.patient_last_name⟩
      else
        some ⟨"patient_name_mismatch",
          patientMismatchMessage d.mrn p.first_name p.last_name
            d.patient_first_name d.patient_last_name⟩

/-- `_check_provider_duplicate`: warn when the submitted NPI exists with a
case-insensitively different provider name. -/
def check_provider_duplicate (store : Store) (d : FormData) : Option Warning :=
  if d.provider_npi.data.isEmpty || d.provider_name.data.isEmpty then none
  else
    match store.providers.find? (fun p => p.npi == d.provider_npi) with
    | none => none
    | some p =>
      if lowerStr p.name == lowerStr d.provider_name then none
      else
        some ⟨"provider_duplicate",
          providerMismatchMessage d.provider_npi p.name d.provider_name⟩

/-- The MRN of an Order's Patient row (the `patient__mrn` join). -/
def patientMrnOf (store : Store) (o : Order) : Option String :=
  (store.patients.find? (fun p => p.id == o.patientId)).map Patient.mrn

/-- The filter of `_check_order_duplicate`: same patient MRN,
case-insensitively equal medication name, created at or after the most
recent local midnight. -/
def isDupOrder (store : Store) (now : Nat) (mrn medication : String) (o : Order) : Bool :=
  (patientMrnOf store o == some mrn)
  && (lowerStr o.medication_name == lowerStr medication)
  && (todayStart now ≤ o.created_at)

/-- `_check_order_duplicate`: warn when a similar order was created today. -/
def check_order_duplicate (store : Store) (now : Nat) (d : FormData) : Option Warning :=
  if d.mrn.data.isEmpty || d.medication_name.data.isEmpty then none
  else
    match store.orders.find? (isDupOrder store now d.mrn d.medication_name) with
    | none => none
    | some o => some ⟨"order_duplicate", orderDupMessage (formatTimeOfDay o.created_at)⟩

/-- `OrderForm.clean`: run the three duplicate checks in order, appending
each produced warning to the warning list. -/
def detect_warnings (store : Store) (now : Nat) (d : FormData) : List Warning :=
  (check_patient_duplicate store d).toList
    ++ (check_provider_duplicate store d).toList
    ++ (check_order_duplicate store now d).toList

theorem isEmpty_false_of_length (l : List Char) (n : Nat) (hn : 0 < n)
    (h : l.length = n) : l.isEmpty = false := by
  cases l with
  | nil => exfalso; simp at h; omega
  | cons a t => rfl

theorem formValid_fields (d : FormData) (hv : formValid d = true) :
    d.patient_first_name.data.isEmpty = false ∧
    d.patient_last_name.data.isEmpty = false ∧
    d.mrn.data.isEmpty = false ∧
    d.provider_name.data.isEmpty = false ∧
    d.provider_npi.data.isEmpty = false ∧
    d.medication_name.data.isEmpty = false := by
  unfold formValid requiredOk at hv
  simp only [Bool.and_eq_true, Bool.not_eq_true'] at hv
  obtain ⟨h1, _, h2, _, hm, h3, _, hn, _, _, h4, _, _, _⟩ := hv
  have hm6 : matchesDigits 6 d.mrn :=
    (mrnFieldErrors_nil_iff d.mrn).mp (List.isEmpty_iff.mp hm)
  have hn10 : matchesDigits 10 d.provider_npi :=
    (npiFieldErrors_nil_iff d.provider_npi).mp (List.isEmpty_iff.mp hn)
  exact ⟨h1, h2, isEmpty_false_of_length _ 6 (by omega) hm6.1, h3,
    isEmpty_false_of_length _ 10 (by omega) hn10.1, h4⟩

/-- Case-insensitive name agreement between a stored Patient and the form. -/
def namesMatchCI (p : Patient) (d : FormData) : Prop :=
  lowerStr p.first_name = lowerStr d.patient_first_name ∧
  lowerStr p.last_name = lowerStr d.patient_last_name

/-- C7: the patient duplicate check yields no warning for an unknown MRN,
exactly one `patient_duplicate` warning when the MRN exists with a
case-insensitively matching name, and exactly one `patient_name_mismatch`
warning otherwise; the duplicate message references the MRN and the name,
and the mismatch message names both the stored and the submitted name. -/
theorem patient_duplicate_check_cases (store : Store) (d : FormData)
    (hv : formValid d = true) :
    ((∀ p ∈ store.patients, p.mrn ≠ d.mrn) →
        check_patient_duplicate store d = none) ∧
    (∀ p, store.patients.find? (fun q => q.mrn == d.mrn) = some p →
      (namesMatchCI p d →
        check_patient_duplicate store d = some ⟨"patient_duplicate",
          patientDupMessage d.mrn d.patient_first_name d.patient_last_name⟩) ∧
      (¬ namesMatchCI p d →
        check_patient_duplicate store d = some ⟨"patient_name_mismatch",
          patientMismatchMessage d.mrn p.first_name p.last_name
            d.patient_first_name d.patient_last_name⟩)) ∧
    (∃ a b c, patientDupMessage d.mrn d.patient_first_name d.patient_last_name =
        a ++ (d.mrn ++ (b ++
          ((d.patient_first_name ++ " " ++ d.patient_last_name) ++ c)))) ∧
    (∀ p : Patient, ∃ a b c e,
        patientMismatchMessage d.mrn p.first_name p.last_name
            d.patient_first_name d.patient_last_name =
          a ++ (d.mrn ++ (b ++ ((p.first_name ++ " " ++ p.last_name) ++
            (c ++ ((d.patient_first_name ++ " " ++ d.patient_last_name) ++ e)))))) := by
  obtain ⟨hfn, hln, hmrn, _, _, _⟩ := formValid_fields d hv
  refine ⟨?_, ?_, ?_, ?_⟩
  · intro h
    have hnone : store.patients.find? (fun q => q.mrn == d.mrn) = none :=
      List.find?_eq_none.mpr (fun p hp => by simpa using h p hp)
    simp [check_patient_duplicate, hfn, hln, hmrn, hnone]
  · intro p hp
    constructor
    · intro hm
      simp [check_patient_duplicate, hfn, hln, hmrn, hp, hm.1, hm.2]
    · intro hm
      have hcond : (lowerStr p.first_name == lowerStr d.patient_first_name
          && (lowerStr p.last_name == lowerStr d.patient_last_name)) = false := by
        rw [Bool.eq_false_iff]
        intro hc
        simp only [Bool.and_eq_true, beq_iff_eq] at hc
        exact hm ⟨hc.1, hc.2⟩
      simp [check_patient_duplicate, hfn, hln, hmrn, hp, hcond]
  · exact ⟨"A patient with MRN ", " and name \"",
      "\" already exists. This may be a duplicate order.", rfl⟩
  · intro p
    exact ⟨"MRN ", " belongs to \"", "\". You entered \"", _, rfl⟩

/-- The duplicate-order condition: some stored Order is for the same
patient MRN, has a case-insensitively equal medication name, and was
created at or after the most recent local-wall-clock midnight. -/
def orderMatchesToday (store : Store) (now : Nat) (d : FormData) (o : Order) : Prop :=
  patientMrnOf store o = some d.mrn ∧
  lowerStr o.medication_name = lowerStr d.medication_name ∧
  todayStart now ≤ o.created_at

theorem isDupOrder_iff (store : Store) (now : Nat) (d : FormData) (o : Order) :
    isDupOrder store now d.mrn d.medication_name o = true ↔
      orderMatchesToday store now d o := by
  simp [isDupOrder, orderMatchesToday, Bool.and_eq_true, beq_iff_eq,
    decide_eq_true_eq, and_assoc]

/-- C2: the order duplicate check emits a warning iff some stored Order
matches the same-MRN / same-medication / created-today condition; the
warning has kind `order_duplicate` and states the matching order's local
creation time of day; without a matching order no warning fires. -/
theorem order_duplicate_check (store : Store) (now : Nat) (d : FormData)
    (hv : formValid d = true) :
    ((check_order_duplicate store now d).isSome ↔
      ∃ o ∈ store.orders, orderMatchesToday store now d o) ∧
    (∀ w, check_order_duplicate store now d = some w →
      w.type = "order_duplicate" ∧
      ∃ o ∈ store.orders, orderMatchesToday store now d o ∧
        ∃ a b, w.message = a ++ (formatTimeOfDay o.created_at ++ b)) ∧
    ((∀ o ∈ store.orders, ¬ orderMatchesToday store now d o) →
      check_order_duplicate store now d = none) := by
  obtain ⟨_, _, hmrn, _, _, hmed⟩ := formValid_fields d hv
  have hunf : check_order_duplicate store now d =
      match store.orders.find? (isDupOrder store now d.mrn d.medication_name) with
      | none => none
      | some o =>
          some ⟨"order_duplicate", orderDupMessage (formatTimeOfDay o.created_at)⟩ := by
    simp [check_order_duplicate, hmrn, hmed]
  refine ⟨?_, ?_, ?_⟩
  · rw [hunf]
    cases hfind : store.orders.find? (isDupOrder store now d.mrn d.medication_name) with
    | none =>
      simp only [Option.isSome_none, Bool.false_eq_true, false_iff]
      rintro ⟨o, ho, hm⟩
      exact absurd ((isDupOrder_iff store now d o).mpr hm)
        (by simpa using List.find?_eq_none.mp hfind o ho)
    | some o =>
      simp only [Option.isSome_some, true_iff]
      exact ⟨o, List.mem_of_find?_eq_some hfind,
        (isDupOrder_iff store now d o).mp (List.find?_some hfind)⟩
  · intro w hw
    rw [hunf] at hw
    cases hfind : store.orders.find? (isDupOrder store now d.mrn d.medication_name) with
    | none => rw [hfind] at hw; exact absurd hw (by simp)
    | some o =>
      rw [hfind] at hw
      injection hw with hw2
      refine ⟨by rw [← hw2], o, List.mem_of_find?_eq_some hfind,
        (isDupOrder_iff store now d o).mp (List.find?_some hfind),
        "A similar order for this patient and medication was created today at ",
        ". This might be a duplicate or an edit.", by rw [← hw2]; rfl⟩
  · intro h
    have hnone : store.orders.find? (isDupOrder store now d.mrn d.medication_name)
        = none :=
      List.find?_eq_none.mpr
        (fun o ho hc => h o ho ((isDupOrder_iff store now d o).mp hc))
    rw [hunf, hnone]

theorem check_patient_kind (store : Store) (d : FormData) (w : Warning)
    (h : check_patient_duplicate store d = some w) :
    w.type = "patient_duplicate" ∨ w.type = "patient_name_mismatch" := by
  unfold check_patient_duplicate at h
  split at h
  · exact absurd h (by simp)
  · split at h
    · exact absurd h (by simp)
    · split at h
      · left; injection h with h2; rw [← h2]
      · right; injection h with h2; rw [← h2]

theorem check_provider_kind (store : Store) (d : FormData) (w : Warning)
    (h : check_provider_duplicate store d = some w) :
    w.type = "provider_duplicate" := by
  unfold check_provider_duplicate at h
  split at h
  · exact absurd h (by simp)
  · split at h
    · exact absurd h (by simp)
    · split at h
      · exact absurd h (by simp)
      · injection h with h2; rw [← h2]

theorem check_order_kind (store : Store) (now : Nat) (d : FormData) (w : Warning)
    (h : check_order_duplicate store now d = some w) :
    w.type = "order_duplicate" := by
  unfold check_order_duplicate at h
  split at h
  · exact absurd h (by simp)
  · split at h
    · exact absurd h (by simp)
    · injection h with h2; rw [← h2]

/-- C10: on a valid submission the warning list is the concatenation of an
optional patient-kind warning, then an optional provider-kind warning, then
an optional order-duplicate warning — at most one of each kind, in that
fixed order, so the list has between zero and three entries. -/
theorem warning_list_structure (store : Store) (now : Nat) (d : FormData)
    (_hv : formValid d = true) :
    ∃ wp wpr wo : Option Warning,
      detect_warnings store now d = wp.toList ++ wpr.toList ++ wo.toList ∧
      (∀ w, wp = some w →
        w.type = "patient_duplicate" ∨ w.type = "patient_name_mismatch") ∧
      (∀ w, wpr = some w → w.type = "provider_duplicate") ∧
      (∀ w, wo = some w → w.type = "order_duplicate") ∧
      (detect_warnings store now d).length ≤ 3 := by
  refine ⟨check_patient_duplicate store d, check_provider_duplicate store d,
    check_order_duplicate store now d, rfl,
    fun w h => check_patient_kind store d w h,
    fun w h => check_provider_kind store d w h,
    fun w h => check_order_kind store now d w h, ?_⟩
  unfold detect_warnings
  have hlen : ∀ (a b c : Option Warning),
      (a.toList ++ b.toList ++ c.toList).length ≤ 3 := by
    intro a b c
    cases a <;> cases b <;> cases c <;> simp
  exact hlen _ _ _

/-- `Patient.objects.get_or_create(mrn=..., defaults={names})`: reuse the
row with the submitted MRN if present, otherwise insert a new one with the
submitted names. -/
def get_or_create_patient (store : Store) (now : Nat) (mrn fn ln : String) :
    Store × Patient :=
  match store.patients.find? (fun p => p.mrn == mrn) with
  | some p => (store, p)
  | none =>
    let p : Patient := ⟨store.nextId, fn, ln, mrn, now⟩
    ({ store with patients := store.patients ++ [p], nextId := store.nextId + 1 }, p)

/-- `Provider.objects.get_or_create(npi=..., defaults={name})`. -/
def get_or_create_provider (store : Store) (now : Nat) (npi name : String) :
    Store × Provider :=
  match store.providers.find? (fun p => p.npi == npi) with
  | some p => (store, p)
  | none =>
    let p : Provider := ⟨store.nextId, name, npi, now⟩
    ({ store with providers := store.providers ++ [p], nextId := store.nextId + 1 }, p)

/-- `views.py::save_order`: get-or-create Patient and Provider, then create
the Order linking them with the clinical fields. -/
def save_order (store : Store) (now : Nat) (d : FormData) : Store × Order :=
  let sp := get_or_create_patient store now d.mrn d.patient_first_name d.patient_last_name
  let sq := get_or_create_provider sp.1 now d.provider_npi d.provider_name
  let o : Order := ⟨sq.1.nextId, sp.2.id, sq.2.id, d.primary_diagnosis,
    d.medication_name, d.additional_diagnoses, d.medication_history,
    d.patient_records, now, now⟩
  ({ sq.1 with orders := sq.1.orders ++ [o], nextId := sq.1.nextId + 1 }, o)

/-- Outcome of `views.py::create_order` on a POST request. -/
inductive IntakeResult where
  | rejected
  | warned (ws : List Warning)
  | committed (orderId : Nat)
  deriving Repr, DecidableEq

/-- `views.py::create_order`, POST branch: validate, detect duplicates,
enforce the acknowledge-to-proceed gate, commit. -/
def create_order (store : Store) (now : Nat) (d : FormData) (acknowledge : Bool) :
    IntakeResult × Store :=
  if formValid d then
    let ws := detect_warnings store now d
    if ws.isEmpty then
      let so := save_order store now d
      (.committed so.2.id, so.1)
    else if acknowledge then
      let so := save_order store now d
      (.committed so.2.id, so.1)
    else (.warned ws, store)
  else (.rejected, store)

theorem gocp_orders (store : Store) (now : Nat) (mrn fn ln : String) :
    (get_or_create_patient store now mrn fn ln).1.orders = store.orders := by
  unfold get_or_create_patient
  split <;> rfl

theorem gocp_providers (store : Store) (now : Nat) (mrn fn ln : String) :
    (get_or_create_patient store now mrn fn ln).1.providers = store.providers := by
  unfold get_or_create_patient
  split <;> rfl

theorem gocpr_orders (store : Store) (now : Nat) (npi name : String) :
    (get_or_create_provider store now npi name).1.orders = store.orders := by
  unfold get_or_create_provider
  split <;> rfl

theorem gocpr_patients (store : Store) (now : Nat) (npi name : String) :
    (get_or_create_provider store now npi name).1.patients = store.patients := by
  unfold get_or_create_provider
  split <;> rfl

theorem save_order_orders_length (store : Store) (now : Nat) (d : FormData) :
    (save_order store now d).1.orders.length = store.orders.length + 1 := by
  simp [save_order, gocpr_orders, gocp_orders]

/-- C1: on a valid submission that produced warnings, the intake without
the acknowledgment flag returns the warning list and writes nothing; the
identical submission with the flag commits and creates exactly one new
Order. -/
theorem warned_gate_blocks_until_acknowledged (store : Store) (now : Nat)
    (d : FormData) (hv : formValid d = true)
    (hw : detect_warnings store now d ≠ []) :
    create_order store now d false = (.warned (detect_warnings store now d), store) ∧
    ∃ oid st2, create_order store now d true = (.committed oid, st2) ∧
      st2.orders.length = store.orders.length + 1 := by
  have hwe : (detect_warnings store now d).isEmpty = false := by
    rw [Bool.eq_false_iff]
    intro hc
    exact hw (List.isEmpty_iff.mp hc)
  refine ⟨by simp [create_order, hv, hwe], (save_order store now d).2.id,
    (save_order store now d).1, by simp [create_order, hv, hwe],
    save_order_orders_length store now d⟩

/-- C5: when the submitted MRN already identifies a Patient, the commit
leaves the Patient table unchanged (stored names are never overwritten)
and the new Order references the existing row; likewise for a Provider
identified by the submitted NPI. -/
theorem existing_identity_rows_preserved (store : Store) (now : Nat) (d : FormData) :
    (∀ p, store.patients.find? (fun q => q.mrn == d.mrn) = some p →
      (save_order store now d).1.patients = store.patients ∧
      (save_order store now d).2.patientId = p.id) ∧
    (∀ pr, store.providers.find? (fun q => q.npi == d.provider_npi) = some pr →
      (save_order store now d).1.providers = store.providers ∧
      (save_order store now d).2.providerId = pr.id) := by
  constructor
  · intro p hp
    have h1 : get_or_create_patient store now d.mrn d.patient_first_name
        d.patient_last_name = (store, p) := by
      unfold get_or_create_patient
      rw [hp]
    constructor
    · simp [save_order, h1, gocpr_patients]
    · simp [save_order, h1]
  · intro pr hpr
    have h0 : (get_or_create_patient store now d.mrn d.patient_first_name
        d.patient_last_name).1.providers = store.providers :=
      gocp_providers store now d.mrn d.patient_first_name d.patient_last_name
    have h1 : get_or_create_provider (get_or_create_patient store now d.mrn
          d.patient_first_name d.patient_last_name).1 now d.provider_npi
          d.provider_name =
        ((get_or_create_patient store now d.mrn d.patient_first_name
          d.patient_last_name).1, pr) := by
      unfold get_or_create_provider
      rw [h0, hpr]
    constructor
    · simp [save_order, h1, h0]
    · simp [save_order, h1]

/-- Outcome of the single external generation request issued by
`llm.py::generate_care_plan`: a failure (network error, rate limiting,
authentication failure) or a response carrying its list of content
segments. -/
inductive ApiResult where
  | failure
  | success (content : List String)
  deriving Repr, DecidableEq

/-- Modelled from the spec: `CarePlan.objects.create` under the store-level
one-CarePlan-per-Order uniqueness constraint.  The constraint is declared
in `care_plans/models.py`, which is absent from the sources; the spec
("at most one CarePlan exists per Order ... enforced uniqueness") and the
model tests require a second creation for the same Order to fail. -/
def createCarePlanRow (store : Store) (now : Nat) (oid : Nat) (text : String) :
    Except Unit (Store × CarePlan) :=
  if store.carePlans.any (fun c => c.orderId == oid) then .error ()
  else
    .ok ({ store with
            carePlans := store.carePlans ++ [⟨store.nextId, oid, text, now, now⟩],
            nextId := store.nextId + 1 },
         ⟨store.nextId, oid, text, now, now⟩)

/-- `llm.py::generate_care_plan`: exactly one API request, no retry; on
failure or an empty content list the whole operation fails with no write;
otherwise the first content segment's text is stored as the new CarePlan. -/
def generate_care_plan (store : Store) (now : Nat) (o : Order) (api : ApiResult) :
    Except Unit (Store × CarePlan) :=
  match api with
  | .failure => .error ()
  | .success content =>
    match content with
    | [] => .error ()
    | text :: _ => createCarePlanRow store now o.id text

/-- The advisory message of `views.py::order_success` on generation failure. -/
def retryMessage : String :=
  "Unable to generate care plan at this time. The order has been saved successfully. You can retry generation later."

/-- Rendered outcome of the success view. -/
inductive SuccessView where
  | notFound
  | page (plan : Option CarePlan) (errorMessage : Option String)
  deriving Repr, DecidableEq

/-- `views.py::order_success`: fetch the Order (404 if absent), return the
existing CarePlan if one exists, otherwise attempt generation, degrading
to an advisory message on failure. -/
def order_success (store : Store) (now : Nat) (oid : Nat) (api : ApiResult) :
    SuccessView × Store :=
  match store.orders.find? (fun o => o.id == oid) with
  | none => (.notFound, store)
  | some o =>
    match store.carePlans.find? (fun c => c.orderId == oid) with
    | some cp => (.page (some cp) none, store)
    | none =>
      match generate_care_plan store now o api with
      | .ok (st2, cp) => (.page (some cp) none, st2)
      | .error _ => (.page none (some retryMessage), store)

/-- Outcome of `views.py::update_care_plan` on a POST request. -/
inductive UpdateResult where
  | notFound
  | redirect (orderId : Nat)
  deriving Repr, DecidableEq

/-- `views.py::update_care_plan`: 404 when the Order or its CarePlan is
absent; overwrite the CarePlan text only when the submitted text is
non-empty (Python truthiness), then redirect to the success view. -/
def update_care_plan (store : Store) (now : Nat) (oid : Nat) (text : String) :
    UpdateResult × Store :=
  match store.orders.find? (fun o => o.id == oid) with
  | none => (.notFound, store)
  | some _ =>
    match store.carePlans.find? (fun c => c.orderId == oid) with
    | none => (.notFound, store)
    | some cp =>
      if text.data.isEmpty then (.redirect oid, store)
      else
        (.redirect oid,
          { store with carePlans := store.carePlans.map (fun c =>
              if c.id == cp.id then { c with care_plan_text := text, updated_at := now }
              else c) })

/-- At most one CarePlan per Order: stored CarePlans have pairwise
distinct order ids. -/
def onePlanPerOrder (store : Store) : Prop :=
  store.carePlans.Pairwise (fun a b => a.orderId ≠ b.orderId)

instance (store : Store) : Decidable (onePlanPerOrder store) := by
  unfold onePlanPerOrder
  infer_instance

theorem createCarePlanRow_ok_inv (store : Store) (now oid : Nat) (text : String)
    (st2 : Store) (cp : CarePlan)
    (h : createCarePlanRow store now oid text = .ok (st2, cp))
    (hinv : onePlanPerOrder store) : onePlanPerOrder st2 := by
  unfold createCarePlanRow at h
  split at h
  · exact absurd h (by simp)
  · next hany =>
    have hno : ∀ c ∈ store.carePlans, c.orderId ≠ oid := by
      intro c hc he
      exact hany (List.any_eq_true.mpr ⟨c, hc, by simp [he]⟩)
    injection h with h1
    have hst : st2 = { store with
        carePlans := store.carePlans ++ [⟨store.nextId, oid, text, now, now⟩],
        nextId := store.nextId + 1 } := (congrArg Prod.fst h1).symm
    subst hst
    unfold onePlanPerOrder
    rw [List.pairwise_append]
    exact ⟨hinv, List.pairwise_singleton _ _,
      fun a ha b hb => by
        rw [List.mem_singleton] at hb
        subst hb
        exact hno a ha⟩

theorem generate_care_plan_ok_inv (store : Store) (now : Nat) (o : Order)
    (api : ApiResult) (st2 : Store) (cp : CarePlan)
    (h : generate_care_plan store now o api = .ok (st2, cp))
    (hinv : onePlanPerOrder store) : onePlanPerOrder st2 := by
  unfold generate_care_plan at h
  cases api with
  | failure => exact absurd h (by simp)
  | success content =>
    cases content with
    | nil => exact absurd h (by simp)
    | cons text rest => exact createCarePlanRow_ok_inv _ _ _ _ _ _ h hinv

theorem order_success_preserves_onePlan (store : Store) (now : Nat) (oid : Nat)
    (api : ApiResult) (hinv : onePlanPerOrder store) :
    onePlanPerOrder (order_success store now oid api).2 := by
  unfold order_success
  split
  · exact hinv
  · split
    · exact hinv
    · split
      · next st2 cp heq => exact generate_care_plan_ok_inv _ _ _ _ _ _ heq hinv
      · exact hinv

/-- C3: when a CarePlan already exists for the Order, the success view
returns it unchanged and writes nothing; and from any store in which each
Order has at most one CarePlan, every invocation of the view keeps it so. -/
theorem care_plan_generation_idempotent (store : Store) (now : Nat) (oid : Nat)
    (api : ApiResult) (cp : CarePlan)
    (hcp : store.carePlans.find? (fun c => c.orderId == oid) = some cp)
    (ho : (store.orders.find? (fun o => o.id == oid)).isSome)
    (hinv : onePlanPerOrder store) :
    order_success store now oid api = (.page (some cp) none, store) ∧
    (∀ oid2 api2, onePlanPerOrder (order_success store now oid2 api2).2) := by
  obtain ⟨o, hoe⟩ := Option.isSome_iff_exists.mp ho
  exact ⟨by simp [order_success, hoe, hcp],
    fun oid2 api2 => order_success_preserves_onePlan store now oid2 api2 hinv⟩

/-- C6: when generation fails (network/auth/rate-limit failure or an empty
response), no CarePlan row is written, the store is unchanged, the Order is
still present, and the view surfaces the retry-later advisory. -/
theorem generation_failure_no_partial_write (store : Store) (now : Nat)
    (oid : Nat) (api : ApiResult) (o : Order)
    (ho : store.orders.find? (fun q => q.id == oid) = some o)
    (hnp : store.carePlans.find? (fun c => c.orderId == oid) = none)
    (hfail : api = .failure ∨ api = .success []) :
    order_success store now oid api = (.page none (some retryMessage), store) ∧
    store.orders.find? (fun q => q.id == oid) = some o := by
  rcases hfail with h | h <;> subst h <;>
    exact ⟨by simp [order_success, ho, hnp, generate_care_plan], ho⟩

/-- C9: posting an update whose care-plan text is empty leaves the store
(hence the CarePlan body and both timestamps) unchanged and still
redirects to the success view. -/
theorem empty_update_is_skipped (store : Store) (now : Nat) (oid : Nat)
    (o : Order) (cp : CarePlan)
    (ho : store.orders.find? (fun q => q.id == oid) = some o)
    (hcp : store.carePlans.find? (fun c => c.orderId == oid) = some cp) :
    update_care_plan store now oid "" = (.redirect oid, store) := by
  simp [update_care_plan, ho, hcp]

/-- Header row of `views.py::export_csv`. -/
def csvHeader : List String :=
  ["Order ID", "Order Date", "Patient MRN", "Patient First Name",
   "Patient Last Name", "Provider Name", "Provider NPI", "Primary Diagnosis",
   "Medication Name", "Additional Diagnoses", "Medication History",
   "Care Plan Text"]

/-- Ordering used by `order_by('-created_at')`: newest first. -/
def newerEq (a b : Order) : Prop := b.created_at ≤ a.created_at

instance : DecidableRel newerEq := fun _ _ => Nat.decLe _ _

instance : IsTotal Order newerEq :=
  ⟨fun a b => Nat.le_total b.created_at a.created_at⟩

instance : IsTrans Order newerEq :=
  ⟨fun _ _ _ hab hbc => Nat.le_trans hbc hab⟩

/-- `Order.objects.all().order_by('-created_at')`. -/
def newestFirst (l : List Order) : List Order := List.insertionSort newerEq l

/-- `strftime('%Y-%m-%d %H:%M:%S')` under the minutes-since-epoch time
model: rendered as the local day index and the local time of day. -/
def formatDateTime (t : Nat) : String :=
  "day " ++ toString (t / minutesPerDay) ++ " " ++
    pad2 (t % minutesPerDay / 60) ++ ":" ++ pad2 (t % 60)

/-- `order.care_plan.care_plan_text`, with the `DoesNotExist` handler
substituting the empty string. -/
def carePlanTextFor (store : Store) (oid : Nat) : String :=
  match store.carePlans.find? (fun c => c.orderId == oid) with
  | some cp => cp.care_plan_text
  | none => ""

/-- One data row of the CSV export. -/
def orderRow (store : Store) (o : Order) : List String :=
  [toString o.id, formatDateTime o.created_at,
   ((store.patients.find? (fun p => p.id == o.patientId)).map Patient.mrn).getD "",
   ((store.patients.find? (fun p => p.id == o.patientId)).map Patient.first_name).getD "",
   ((store.patients.find? (fun p => p.id == o.patientId)).map Patient.last_name).getD "",
   ((store.providers.find? (fun p => p.id == o.providerId)).map Provider.name).getD "",
   ((store.providers.find? (fun p => p.id == o.providerId)).map Provider.npi).getD "",
   o.primary_diagnosis, o.medication_name, o.additional_diagnoses,
   o.medication_history, carePlanTextFor store o.id]

/-- `views.py::export_csv`: header row, then one row per Order, newest
first. -/
def export_csv (store : Store) : List (List String) :=
  csvHeader :: (newestFirst store.orders).map (orderRow store)

/-- C8: the export emits the fixed header followed by exactly one data row
per Order (none skipped, none failing), ordered newest first; an Order
without a CarePlan yields the empty string in the care-plan-text column. -/
theorem csv_export_shape (store : Store) :
    (export_csv store).head? = some csvHeader ∧
    (export_csv store).length = store.orders.length + 1 ∧
    (newestFirst store.orders).Perm store.orders ∧
    List.Sorted newerEq (newestFirst store.orders) ∧
    (export_csv store).tail = (newestFirst store.orders).map (orderRow store) ∧
    (∀ o, store.carePlans.find? (fun c => c.orderId == o.id) = none →
      (orderRow store o).length = 12 ∧ (orderRow store o).getLast? = some "") := by
  refine ⟨rfl, ?_, List.perm_insertionSort _ _, List.sorted_insertionSort _ _,
    rfl, ?_⟩
  · simp [export_csv, newestFirst, List.length_insertionSort]
  · intro o hno
    refine ⟨rfl, ?_⟩
    simp [orderRow, carePlanTextFor, hno]

/-! Concrete fixtures used by the witness theorems. -/

def wPatient : Patient := ⟨1, "John", "Doe", "123456", 0⟩

def wProvider : Provider := ⟨2, "Dr. Jane Smith", "1234567890", 0⟩

def wOrder : Order := ⟨3, 1, 2, "E11.9", "Metformin", "", "", "records", 30, 30⟩

def wPlan : CarePlan := ⟨4, 3, "Care plan text", 40, 40⟩

/-- A store holding one patient, provider, order and care plan. -/
def wStore : Store := ⟨[wPatient], [wProvider], [wOrder], [wPlan], 5⟩

/-- A store like `wStore` but whose order has no care plan. -/
def wStore2 : Store := ⟨[wPatient], [wProvider], [wOrder], [], 5⟩

def wData : FormData :=
  ⟨"John", "Doe", "123456", "Dr. Jane Smith", "1234567890", "E11.9",
   "Metformin", "", "", "Patient records"⟩

theorem warned_gate_witness :
    create_order wStore 100 wData false =
      (.warned (detect_warnings wStore 100 wData), wStore) ∧
    ∃ oid st2, create_order wStore 100 wData true = (.committed oid, st2) ∧
      st2.orders.length = wStore.orders.length + 1 :=
  warned_gate_blocks_until_acknowledged wStore 100 wData (by decide) (by decide)

theorem order_duplicate_check_witness :
    ((check_order_duplicate wStore 100 wData).isSome ↔
      ∃ o ∈ wStore.orders, orderMatchesToday wStore 100 wData o) ∧
    (∀ w, check_order_duplicate wStore 100 wData = some w →
      w.type = "order_duplicate" ∧
      ∃ o ∈ wStore.orders, orderMatchesToday wStore 100 wData o ∧
        ∃ a b, w.message = a ++ (formatTimeOfDay o.created_at ++ b)) ∧
    ((∀ o ∈ wStore.orders, ¬ orderMatchesToday wStore 100 wData o) →
      check_order_duplicate wStore 100 wData = none) :=
  order_duplicate_check wStore 100 wData (by decide)

theorem patient_duplicate_witness :
    check_patient_duplicate wStore wData = some ⟨"patient_duplicate",
      patientDupMessage wData.mrn wData.patient_first_name wData.patient_last_name⟩ :=
  ((patient_duplicate_check_cases wStore wData (by decide)).2.1 wPatient
    (by decide)).1 ⟨rfl, rfl⟩

theorem existing_identity_witness :
    (save_order wStore 100 wData).1.patients = wStore.patients ∧
    (save_order wStore 100 wData).2.patientId = wPatient.id ∧
    (save_order wStore 100 wData).1.providers = wStore.providers ∧
    (save_order wStore 100 wData).2.providerId = wProvider.id := by
  have h := existing_identity_rows_preserved wStore 100 wData
  have h1 := h.1 wPatient (by decide)
  have h2 := h.2 wProvider (by decide)
  exact ⟨h1.1, h1.2, h2.1, h2.2⟩

theorem idempotent_generation_witness :
    order_success wStore 100 3 .failure = (.page (some wPlan) none, wStore) ∧
    (∀ oid2 api2, onePlanPerOrder (order_success wStore 100 oid2 api2).2) :=
  care_plan_generation_idempotent wStore 100 3 .failure wPlan (by decide)
    (by decide) (by decide)

theorem generation_failure_witness :
    order_success wStore2 100 3 .failure =
      (.page none (some retryMessage), wStore2) ∧
    wStore2.orders.find? (fun q => q.id == 3) = some wOrder :=
  generation_failure_no_partial_write wStore2 100 3 .failure wOrder (by decide)
    (by decide) (Or.inl rfl)

theorem empty_update_witness :
    update_care_plan wStore 100 3 "" = (.redirect 3, wStore) :=
  empty_update_is_skipped wStore 100 3 wOrder wPlan (by decide) (by decide)

theorem csv_export_witness :
    (export_csv wStore2).head? = some csvHeader ∧
    (export_csv wStore2).length = wStore2.orders.length + 1 ∧
    (newestFirst wStore2.orders).Perm wStore2.orders ∧
    List.Sorted newerEq (newestFirst wStore2.orders) ∧
    (export_csv wStore2).tail = (newestFirst wStore2.orders).map (orderRow wStore2) ∧
    (orderRow wStore2 wOrder).length = 12 ∧
    (orderRow wStore2 wOrder).getLast? = some "" := by
  have h := csv_export_shape wStore2
  have h6 := h.2.2.2.2.2 wOrder (by decide)
  exact ⟨h.1, h.2.1, h.2.2.1, h.2.2.2.1, h.2.2.2.2.1, h6.1, h6.2⟩

theorem warning_list_witness :
    ∃ wp wpr wo : Option Warning,
      detect_warnings wStore 100 wData = wp.toList ++ wpr.toList ++ wo.toList ∧
      (∀ w, wp = some w →
        w.type = "patient_duplicate" ∨ w.type = "patient_name_mismatch") ∧
      (∀ w, wpr = some w → w.type = "provider_duplicate") ∧
      (∀ w, wo = some w → w.type = "order_duplicate") ∧
      (detect_warnings wStore 100 wData).length ≤ 3 :=
  warning_list_structure wStore 100 wData (by decide)

end CarePlansApp
